import Mathlib

/-!
Verification of the hotels feature of the drivent backend: the eligibility
check (`isAllowed`), the two guarded read operations (`getHotels`,
`getHotelWithRooms`), the user repository lookup they consult, and the HTTP
controllers that map service outcomes to status codes.

Machine model: Prisma rows are immutable records; a database snapshot is a
list of user rows (each carrying its included enrollment→ticket→ticket-type
chain, as produced by `findFirst` with the nested `include`) and a list of
hotel rows each carrying its rooms.  JavaScript `null`/`undefined` becomes
`Option`; a thrown exception (a rejected promise propagating through
`await`) becomes `Except.error`.
-/

/-- Prisma `TicketStatus` enum (`RESERVED`, `PAID`); the service compares
`status === TicketStatus.PAID` only. -/
inductive TicketStatus where
  | RESERVED
  | PAID
deriving DecidableEq, Repr

/-- Prisma `TicketType` row, the two boolean attributes the service reads. -/
structure TicketTypeRec where
  isRemote : Bool
  includesHotel : Bool
deriving DecidableEq, Repr

/-- A `Ticket` row as returned by the nested `include`: its status together
with its (possibly unresolvable) `TicketType`; the service guards the type
with `ticketWithTicketType?.TicketType` and a falsiness check. -/
structure TicketRec where
  status : TicketStatus
  TicketType : Option TicketTypeRec
deriving DecidableEq, Repr

/-- An `Enrollment` row with its included list of tickets. -/
structure EnrollmentRec where
  Ticket : List TicketRec
deriving DecidableEq, Repr

/-- A `User` row with its included list of enrollments
(`include: { Enrollment: { include: { Ticket: ... } } }`). -/
structure UserRec where
  id : Nat
  Enrollment : List EnrollmentRec
deriving DecidableEq, Repr

/-- A `Room` row: id, name, capacity, owning hotel, and its own timestamps
(timestamps modelled as naturals). -/
structure Room where
  id : Nat
  name : String
  capacity : Nat
  hotelId : Nat
  createdAt : Nat
  updatedAt : Nat
deriving DecidableEq, Repr

/-- A `Hotel` row without its rooms, as `prisma.hotel.findMany()` returns. -/
structure Hotel where
  id : Nat
  name : String
  image : String
  createdAt : Nat
  updatedAt : Nat
deriving DecidableEq, Repr

/-- `Hotel & { Rooms: Room[] }`, the shape of `findFirst` with
`include: { Rooms: true }` and the return type of `getHotelWithRooms`. -/
structure HotelWithRooms where
  id : Nat
  name : String
  image : String
  createdAt : Nat
  updatedAt : Nat
  Rooms : List Room
deriving DecidableEq, Repr

/-- Scalar projection of a stored hotel row, dropping the rooms. -/
def HotelWithRooms.toHotel (h : HotelWithRooms) : Hotel :=
  ⟨h.id, h.name, h.image, h.createdAt, h.updatedAt⟩

/-- A database snapshot: the `User` table (rows in storage order, each with
its included chain) and the `Hotel` table (rows in storage order, each with
its rooms). -/
structure DB where
  users : List UserRec
  hotels : List HotelWithRooms
deriving DecidableEq, Repr

/-- Failure kinds crossing the service boundary.  `forbidden` and
`notFound` model `forbiddenError()` / `notFoundError()` (the errors module
is not under src; the controller distinguishes them by the names
`ForbiddenError` / `NotFoundError`, per the error taxonomy of the spec).
`typeError` models a JavaScript `TypeError` thrown by a property access on
`null`.  `infra` models an `InfrastructureFailure`: a gateway fetch whose
promise rejects, rethrown by `await`. -/
inductive Failure where
  | forbidden
  | notFound
  | typeError
  | infra
deriving DecidableEq, Repr

/-- `userRepository.findUserWithTicketTypeByUserId`: the `prisma.user.findFirst`
call carries only the nested `include` and no `where` clause, so it returns
the first row of the `User` table — the `userId` argument is ignored — or
`null` when the table is empty. -/
def findUserWithTicketTypeByUserId (db : DB) (userId : Nat) : Option UserRec :=
  db.users.head?

/-- Modelled from the spec: `hotelRepository.findHotels` is not under src.
Contract `listHotels()` returns the sequence of stored `Hotel` rows, scalar
fields only (no rooms included), possibly empty; storage order stands for
the fetch order. -/
def findHotels (db : DB) : List Hotel :=
  db.hotels.map HotelWithRooms.toHotel

/-- Modelled from the spec: `hotelRepository.findHotelWithRoomsById` is not
under src.  Contract `fetchHotelWithRooms(hotelId)` returns the hotel row
with that id together with its rooms (`Room` rows as stored, each with its
own fields and timestamps), or absent when no hotel with that id exists. -/
def findHotelWithRoomsById (db : DB) (hotelId : Nat) : Option HotelWithRooms :=
  db.hotels.find? (fun h => h.id == hotelId)

/-- The data access gateway as the service sees it: each fetch either
yields a value or fails (rejected promise).  Kept abstract so that theorems
can quantify over fetch behaviours. -/
structure Gateway where
  findUserWithTicketTypeByUserId : Nat → Except Failure (Option UserRec)
  findHotels : Except Failure (List Hotel)
  findHotelWithRoomsById : Nat → Except Failure (Option HotelWithRooms)

/-- The gateway over a database snapshot: every fetch succeeds and reads
the snapshot through the repository functions. -/
def gatewayOfDb (db : DB) : Gateway :=
  ⟨fun userId => Except.ok (findUserWithTicketTypeByUserId db userId),
   Except.ok (findHotels db),
   fun hotelId => Except.ok (findHotelWithRoomsById db hotelId)⟩

/-- `isAllowed` of the hotels service.  It awaits the user fetch; on a
`null` row the access `userWithTicketTypeByUserId.Enrollment` throws a
`TypeError` (the root object carries no optional chaining).  Otherwise
`Enrollment?.[0]?.Ticket?.[0]` resolves the first enrollment's first
ticket, `?.TicketType` its type; a missing link fails the `!ticketType`
check and yields `false`; else the result is
`status === PAID && (!isRemote && includesHotel)`. -/
def isAllowed (g : Gateway) (userId : Nat) : Except Failure Bool :=
  match g.findUserWithTicketTypeByUserId userId with
  | Except.error e => Except.error e
  | Except.ok none => Except.error Failure.typeError
  | Except.ok (some user) =>
    match (user.Enrollment.head?).bind (fun e => e.Ticket.head?) with
    | none => Except.ok false
    | some ticketWithTicketType =>
      match ticketWithTicketType.TicketType with
      | none => Except.ok false
      | some ticketType =>
        Except.ok ((ticketWithTicketType.status == TicketStatus.PAID)
          && (!ticketType.isRemote && ticketType.includesHotel))

/-- `getHotels` of the hotels service: check eligibility, throw
`forbiddenError()` when not allowed, else return the gateway's hotel list
verbatim. -/
def getHotels (g : Gateway) (userId : Nat) : Except Failure (List Hotel) :=
  match isAllowed g userId with
  | Except.error e => Except.error e
  | Except.ok allowed =>
    if !allowed then Except.error Failure.forbidden
    else g.findHotels

/-- `getHotelWithRooms` of the hotels service: check eligibility, throw
`forbiddenError()` when not allowed; else fetch the hotel with its rooms,
throw `notFoundError()` on a `null` result, else return it. -/
def getHotelWithRooms (g : Gateway) (userId : Nat) (hotelId : Nat) :
    Except Failure HotelWithRooms :=
  match isAllowed g userId with
  | Except.error e => Except.error e
  | Except.ok allowed =>
    if !allowed then Except.error Failure.forbidden
    else
      match g.findHotelWithRoomsById hotelId with
      | Except.error e => Except.error e
      | Except.ok none => Except.error Failure.notFound
      | Except.ok (some hotelWithRooms) => Except.ok hotelWithRooms

/-- What an Express handler does with the response object. -/
inductive HttpOutcome where
  | hotelsOk (code : Nat) (hotels : List Hotel)
  | hotelOk (code : Nat) (hotel : HotelWithRooms)
  | statusOnly (code : Nat)
  | noResponse
deriving DecidableEq, Repr

/-- The `GET /hotels` controller: on success `res.status(200).send(hotels)`;
the `catch` block matches every error and answers `403 FORBIDDEN`. -/
def getHotelsController (g : Gateway) (userId : Nat) : HttpOutcome :=
  match getHotels g userId with
  | Except.ok hotels => HttpOutcome.hotelsOk 200 hotels
  | Except.error _ => HttpOutcome.statusOnly 403

/-- The `GET /hotels/:hotelId` controller: on success
`res.status(200).send(hotelWithRooms)`; the `catch` block answers `403` for
`error.name === "ForbiddenError"`, `404` for `"NotFoundError"`, and falls
through without sending anything for every other error. -/
def getHotelWithRoomsController (g : Gateway) (userId : Nat) (hotelId : Nat) :
    HttpOutcome :=
  match getHotelWithRooms g userId hotelId with
  | Except.ok hotelWithRooms => HttpOutcome.hotelOk 200 hotelWithRooms
  | Except.error Failure.forbidden => HttpOutcome.statusOnly 403
  | Except.error Failure.notFound => HttpOutcome.statusOnly 404
  | Except.error _ => HttpOutcome.noResponse

/-!
State-passing semantics for the frame property: every database access a
request performs is threaded through the snapshot, so that an operation
that wrote rows would be visible in the returned snapshot.  The read
queries the hotels feature issues (`findFirst`, `findMany`) leave the
snapshot as they found it; `prisma.user.create` (present in the user
repository but never called by the hotels feature) appends a row.
-/

/-- State-passing form of `findUserWithTicketTypeByUserId`: a read query. -/
def findUserWithTicketTypeByUserIdS (userId : Nat) (db : DB) :
    Option UserRec × DB :=
  (findUserWithTicketTypeByUserId db userId, db)

/-- State-passing form of `findHotels`: a read query. -/
def findHotelsS (db : DB) : List Hotel × DB :=
  (findHotels db, db)

/-- State-passing form of `findHotelWithRoomsById`: a read query. -/
def findHotelWithRoomsByIdS (hotelId : Nat) (db : DB) :
    Option HotelWithRooms × DB :=
  (findHotelWithRoomsById db hotelId, db)

/-- `userRepository.create` in state-passing form: `prisma.user.create`
appends a row to the `User` table.  The hotels service never calls it; it
is embedded to show that writes are expressible in this semantics. -/
def createS (data : UserRec) (db : DB) : UserRec × DB :=
  (data, ⟨db.users ++ [data], db.hotels⟩)

/-- `isAllowed` in state-passing form: the one user fetch it performs is
threaded through the snapshot. -/
def isAllowedS (userId : Nat) (db : DB) : Except Failure Bool × DB :=
  match findUserWithTicketTypeByUserIdS userId db with
  | (none, db1) => (Except.error Failure.typeError, db1)
  | (some user, db1) =>
    match (user.Enrollment.head?).bind (fun e => e.Ticket.head?) with
    | none => (Except.ok false, db1)
    | some ticketWithTicketType =>
      match ticketWithTicketType.TicketType with
      | none => (Except.ok false, db1)
      | some ticketType =>
        (Except.ok ((ticketWithTicketType.status == TicketStatus.PAID)
          && (!ticketType.isRemote && ticketType.includesHotel)), db1)

/-- `getHotels` in state-passing form. -/
def getHotelsS (userId : Nat) (db : DB) : Except Failure (List Hotel) × DB :=
  match isAllowedS userId db with
  | (Except.error e, db1) => (Except.error e, db1)
  | (Except.ok allowed, db1) =>
    if !allowed then (Except.error Failure.forbidden, db1)
    else
      match findHotelsS db1 with
      | (hotels, db2) => (Except.ok hotels, db2)

/-- `getHotelWithRooms` in state-passing form. -/
def getHotelWithRoomsS (userId : Nat) (hotelId : Nat) (db : DB) :
    Except Failure HotelWithRooms × DB :=
  match isAllowedS userId db with
  | (Except.error e, db1) => (Except.error e, db1)
  | (Except.ok allowed, db1) =>
    if !allowed then (Except.error Failure.forbidden, db1)
    else
      match findHotelWithRoomsByIdS hotelId db1 with
      | (none, db2) => (Except.error Failure.notFound, db2)
      | (some hotelWithRooms, db2) => (Except.ok hotelWithRooms, db2)

/-!
Concrete snapshots used to instantiate theorems with hypotheses and to
exhibit counterexamples.
-/

/-- A paid, non-remote, hotel-including ticket: the eligible combination. -/
def eligibleTicket : TicketRec :=
  ⟨TicketStatus.PAID, some ⟨false, true⟩⟩

/-- User row with the eligible chain. -/
def eligibleUser (uid : Nat) : UserRec :=
  ⟨uid, [⟨[eligibleTicket]⟩]⟩

/-- User row with no enrollment at all. -/
def userNoEnrollment (uid : Nat) : UserRec :=
  ⟨uid, []⟩

/-- A snapshot whose ticket attributes are the three parameters: one user
whose first enrollment's first ticket carries them; no hotels. -/
def mkTicketDb (st : TicketStatus) (ir ih : Bool) : DB :=
  ⟨[⟨1, [⟨[⟨st, some ⟨ir, ih⟩⟩]⟩]⟩], []⟩

/-- Two users: row one eligible, row two without any enrollment. -/
def dbTwoUsers : DB :=
  ⟨[eligibleUser 1, userNoEnrollment 2], []⟩

/-- One ineligible user (no enrollment), no hotels. -/
def dbIneligible : DB :=
  ⟨[userNoEnrollment 3], []⟩

/-- One eligible user, no hotels. -/
def dbEligibleNoHotels : DB :=
  ⟨[eligibleUser 1], []⟩

/-- A stored hotel whose timestamps (10, 11) differ from those of its one
room (20, 21). -/
def hotelRoomTs : HotelWithRooms :=
  ⟨1, "Hilton", "img", 10, 11, [⟨7, "101", 2, 1, 20, 21⟩]⟩

/-- One eligible user and the `hotelRoomTs` hotel. -/
def dbRoomTs : DB :=
  ⟨[eligibleUser 1], [hotelRoomTs]⟩

/-- A gateway whose user fetch fails with an infrastructure failure
(storage unavailable): every fetch rejects. -/
def gatewayInfra : Gateway :=
  ⟨fun _ => Except.error Failure.infra,
   Except.error Failure.infra,
   fun _ => Except.error Failure.infra⟩

deriving instance DecidableEq for Except

/-- The state-passing semantics can express writes: `create` appends a
user row to the snapshot, so a state-preservation theorem is not vacuous. -/
theorem createS_appends_row (data : UserRec) (db : DB) :
    (createS data db).2.users = db.users ++ [data] := rfl

/-- Coherence of the two embeddings of `isAllowed`: the value computed by
the state-passing form agrees with the gateway-based form over the same
snapshot. -/
theorem isAllowedS_fst (userId : Nat) (db : DB) :
    (isAllowedS userId db).1 = isAllowed (gatewayOfDb db) userId := by
  simp only [isAllowedS, isAllowed, gatewayOfDb, findUserWithTicketTypeByUserIdS,
    findUserWithTicketTypeByUserId]
  cases db.users.head? with
  | none => rfl
  | some user =>
    dsimp only
    cases (user.Enrollment.head?).bind (fun e => e.Ticket.head?) with
    | none => rfl
    | some t =>
      dsimp only
      cases t.TicketType with
      | none => rfl
      | some tt => rfl

/-- C1: the gateway lookup does not return the chain of the identified
user.  In a snapshot whose first row is an eligible user 1 and whose user 2
has no enrollment, the lookup queried with userId 2 returns user 1's row,
and the eligibility check consequently deems user 2 eligible, although the
chain belonging to user 2 stops at the missing enrollment. -/
theorem C1_lookup_ignores_userId :
    (findUserWithTicketTypeByUserId dbTwoUsers 2).map UserRec.id = some 1
    ∧ isAllowed (gatewayOfDb dbTwoUsers) 2 = Except.ok true
    ∧ (dbTwoUsers.users.filter (fun u => u.id == 2)).map UserRec.Enrollment = [[]] := by
  decide

/-- C2: for a present ticket context the eligibility decision is true
exactly when the ticket is PAID, non-remote and hotel-including; flipping
any single one of the three conditions away from the eligible combination,
holding the other two, makes it false. -/
theorem C2_eligibility_iff (st : TicketStatus) (ir ih : Bool) :
    (isAllowed (gatewayOfDb (mkTicketDb st ir ih)) 1 = Except.ok true
        ↔ (st = TicketStatus.PAID ∧ ir = false ∧ ih = true))
    ∧ isAllowed (gatewayOfDb (mkTicketDb TicketStatus.RESERVED false true)) 1
        = Except.ok false
    ∧ isAllowed (gatewayOfDb (mkTicketDb TicketStatus.PAID true true)) 1
        = Except.ok false
    ∧ isAllowed (gatewayOfDb (mkTicketDb TicketStatus.PAID false false)) 1
        = Except.ok false := by
  cases st <;> cases ir <;> cases ih <;> decide

/-- C3 counterexample: over an empty `User` table the gateway returns no
user record, and `isAllowed` evaluates to a thrown `TypeError` (the access
`userWithTicketTypeByUserId.Enrollment` on `null`), not to a boolean — so
this form of absence raises an exception instead of yielding `false`. -/
theorem C3_counterexample :
    isAllowed (gatewayOfDb ⟨[], []⟩) 1 = Except.error Failure.typeError := rfl

/-- C3 amended: whenever the gateway returns a user record, `isAllowed`
returns a boolean whatever the shape of the included chain, and each
remaining form of absence — no enrollment, an enrollment with no ticket, a
ticket with no resolvable type — yields `false`; only the no-user-record
case raises. -/
theorem C3_total_when_user_present (u0 : UserRec) (rest : List UserRec)
    (hs : List HotelWithRooms) (uid : Nat) :
    (∃ b : Bool, isAllowed (gatewayOfDb ⟨u0 :: rest, hs⟩) uid = Except.ok b)
    ∧ isAllowed (gatewayOfDb ⟨userNoEnrollment 5 :: rest, hs⟩) uid = Except.ok false
    ∧ isAllowed (gatewayOfDb ⟨(⟨5, [⟨[]⟩]⟩ : UserRec) :: rest, hs⟩) uid = Except.ok false
    ∧ isAllowed (gatewayOfDb ⟨(⟨5, [⟨[⟨TicketStatus.PAID, none⟩]⟩]⟩ : UserRec) :: rest, hs⟩) uid
        = Except.ok false := by
  refine ⟨?_, rfl, rfl, rfl⟩
  simp only [isAllowed, gatewayOfDb, findUserWithTicketTypeByUserId, List.head?_cons]
  cases hb : (u0.Enrollment.head?).bind (fun e => e.Ticket.head?) with
  | none => exact ⟨false, rfl⟩
  | some t =>
    dsimp only
    cases ht : t.TicketType with
    | none => exact ⟨false, rfl⟩
    | some tt => exact ⟨_, rfl⟩

/-- C4: when the eligibility check evaluates to `false`, `getHotelWithRooms`
fails with the Forbidden error for every hotelId, and it does so for every
behaviour of the hotel lookup — the lookup is not consulted, so even an id
with no matching hotel yields Forbidden, never NotFound. -/
theorem C4_forbidden_before_notFound (g : Gateway) (u hid : Nat)
    (h : isAllowed g u = Except.ok false) :
    getHotelWithRooms g u hid = Except.error Failure.forbidden
    ∧ ∀ f : Nat → Except Failure (Option HotelWithRooms),
        getHotelWithRooms ⟨g.findUserWithTicketTypeByUserId, g.findHotels, f⟩ u hid
          = Except.error Failure.forbidden := by
  constructor
  · simp only [getHotelWithRooms, h]
    rfl
  · intro f
    have h2 : isAllowed (⟨g.findUserWithTicketTypeByUserId, g.findHotels, f⟩ : Gateway) u
        = Except.ok false := h
    simp only [getHotelWithRooms, h2]
    rfl

/-- C4 witness: an ineligible snapshot (its one user has no enrollment)
and a hotelId (99) with no matching hotel produce the Forbidden failure. -/
theorem C4_witness :
    isAllowed (gatewayOfDb dbIneligible) 3 = Except.ok false
    ∧ getHotelWithRooms (gatewayOfDb dbIneligible) 3 99 = Except.error Failure.forbidden :=
  ⟨by decide,
   (C4_forbidden_before_notFound (gatewayOfDb dbIneligible) 3 99 (by decide)).1⟩

/-- C5: for an eligible user, `getHotels` returns the gateway's hotel list
verbatim — the very list the fetch produced, unmodified, unfiltered and
unreordered. -/
theorem C5_hotels_verbatim (g : Gateway) (u : Nat) (hs : List Hotel)
    (he : isAllowed g u = Except.ok true) (hf : g.findHotels = Except.ok hs) :
    getHotels g u = Except.ok hs := by
  simp only [getHotels, he, hf]
  rfl

/-- C5 witness: an eligible user over a snapshot with zero hotels receives
the successful empty list, not a failure. -/
theorem C5_witness :
    isAllowed (gatewayOfDb dbEligibleNoHotels) 1 = Except.ok true
    ∧ (gatewayOfDb dbEligibleNoHotels).findHotels = Except.ok ([] : List Hotel)
    ∧ getHotels (gatewayOfDb dbEligibleNoHotels) 1 = Except.ok ([] : List Hotel) :=
  ⟨by decide, by decide,
   C5_hotels_verbatim (gatewayOfDb dbEligibleNoHotels) 1 [] (by decide) (by decide)⟩

/-- C6: for an eligible user, `getHotelWithRooms` fails with NotFound
exactly when no stored hotel has the requested id, and when the lookup
finds a hotel it returns that hotel record together with its room list. -/
theorem C6_notFound_iff_absent (db : DB) (u hid : Nat)
    (he : isAllowed (gatewayOfDb db) u = Except.ok true) :
    (getHotelWithRooms (gatewayOfDb db) u hid = Except.error Failure.notFound
        ↔ ∀ h ∈ db.hotels, h.id ≠ hid)
    ∧ ∀ hw, findHotelWithRoomsById db hid = some hw
        → getHotelWithRooms (gatewayOfDb db) u hid = Except.ok hw := by
  constructor
  · simp only [getHotelWithRooms, he]
    cases hfind : findHotelWithRoomsById db hid with
    | none =>
      simp only [gatewayOfDb, hfind]
      simp only [findHotelWithRoomsById, List.find?_eq_none, beq_iff_eq] at hfind
      simpa using hfind
    | some hw =>
      simp only [gatewayOfDb, hfind]
      constructor
      · intro hcontra
        cases hcontra
      · intro hall
        have hmem := List.mem_of_find?_eq_some hfind
        have hp := List.find?_some hfind
        simp only [beq_iff_eq] at hp
        exact absurd hp (hall hw hmem)
  · intro hw hfind
    simp only [getHotelWithRooms, he]
    simp only [gatewayOfDb, hfind]
    rfl

/-- C6 witness: an eligible user requesting the stored hotel id 1 receives
that hotel with its rooms. -/
theorem C6_witness :
    isAllowed (gatewayOfDb dbRoomTs) 1 = Except.ok true
    ∧ findHotelWithRoomsById dbRoomTs 1 = some hotelRoomTs
    ∧ getHotelWithRooms (gatewayOfDb dbRoomTs) 1 1 = Except.ok hotelRoomTs :=
  ⟨by decide, by decide,
   (C6_notFound_iff_absent dbRoomTs 1 1 (by decide)).2 hotelRoomTs (by decide)⟩

/-- C7 counterexample: for an eligible user and hotel 1 — whose timestamps
are (10, 11) while its one room's own timestamps are (20, 21) — the detail
result's room entry carries the room's own timestamps (20, 21), not the
hotel's, refuting the claim that room entries carry the hotel's
createdAt/updatedAt. -/
theorem C7_counterexample :
    getHotelWithRooms (gatewayOfDb dbRoomTs) 1 1 = Except.ok hotelRoomTs
    ∧ hotelRoomTs.Rooms.map Room.createdAt = [20]
    ∧ hotelRoomTs.Rooms.map Room.updatedAt = [21]
    ∧ hotelRoomTs.createdAt = 10
    ∧ hotelRoomTs.updatedAt = 11 := by
  decide

/-- C7 amended: for an eligible user and an existing hotel with N rooms,
the detail result contains exactly that hotel's fields and exactly its N
room entries, each carrying its own id, name, capacity, hotelId, createdAt
and updatedAt — the room's own timestamps, not the hotel's. -/
theorem C7_detail_fields (db : DB) (u hid : Nat) (hw : HotelWithRooms)
    (he : isAllowed (gatewayOfDb db) u = Except.ok true)
    (hf : findHotelWithRoomsById db hid = some hw) :
    getHotelWithRooms (gatewayOfDb db) u hid
      = Except.ok ⟨hw.id, hw.name, hw.image, hw.createdAt, hw.updatedAt,
          hw.Rooms.map (fun r =>
            ⟨r.id, r.name, r.capacity, r.hotelId, r.createdAt, r.updatedAt⟩)⟩ := by
  have hmap : hw.Rooms.map (fun r =>
      (⟨r.id, r.name, r.capacity, r.hotelId, r.createdAt, r.updatedAt⟩ : Room))
      = hw.Rooms := List.map_id hw.Rooms
  rw [hmap]
  simp only [getHotelWithRooms, he]
  simp only [gatewayOfDb, hf]
  rfl

/-- C7 witness: the amended field-by-field description holds at the
concrete snapshot with one hotel and one room. -/
theorem C7_witness :
    isAllowed (gatewayOfDb dbRoomTs) 1 = Except.ok true
    ∧ findHotelWithRoomsById dbRoomTs 1 = some hotelRoomTs
    ∧ getHotelWithRooms (gatewayOfDb dbRoomTs) 1 1
        = Except.ok ⟨hotelRoomTs.id, hotelRoomTs.name, hotelRoomTs.image,
            hotelRoomTs.createdAt, hotelRoomTs.updatedAt,
            hotelRoomTs.Rooms.map (fun r =>
              ⟨r.id, r.name, r.capacity, r.hotelId, r.createdAt, r.updatedAt⟩)⟩ :=
  ⟨by decide, by decide, C7_detail_fields dbRoomTs 1 1 hotelRoomTs (by decide) (by decide)⟩

/-- C8 counterexample: a gateway whose fetches fail with an infrastructure
failure is not propagated unchanged: the list controller's catch-all
classifies it as Forbidden (403), and the detail controller's name-matching
catch sends nothing at all — the failure is silently swallowed. -/
theorem C8_counterexample :
    getHotelsController gatewayInfra 1 = HttpOutcome.statusOnly 403
    ∧ getHotelWithRoomsController gatewayInfra 1 1 = HttpOutcome.noResponse :=
  ⟨rfl, rfl⟩

/-- C8 amended: whenever the user fetch fails with an infrastructure
failure, `getHotels` answers 403 — classifying the failure as Forbidden —
and `getHotelWithRooms` sends no status signal at all, because its catch
matches only the names ForbiddenError and NotFoundError. -/
theorem C8_infra_mishandled (g : Gateway) (u hid : Nat)
    (hinfra : g.findUserWithTicketTypeByUserId u = Except.error Failure.infra) :
    getHotelsController g u = HttpOutcome.statusOnly 403
    ∧ getHotelWithRoomsController g u hid = HttpOutcome.noResponse := by
  have hA : isAllowed g u = Except.error Failure.infra := by
    simp only [isAllowed, hinfra]
  constructor
  · simp only [getHotelsController, getHotels, hA]
  · simp only [getHotelWithRoomsController, getHotelWithRooms, hA]

/-- C8 witness: the amended mapping at the concrete failing gateway. -/
theorem C8_witness :
    gatewayInfra.findUserWithTicketTypeByUserId 2 = Except.error Failure.infra
    ∧ getHotelsController gatewayInfra 2 = HttpOutcome.statusOnly 403
    ∧ getHotelWithRoomsController gatewayInfra 2 5 = HttpOutcome.noResponse :=
  ⟨rfl,
   (C8_infra_mishandled gatewayInfra 2 5 rfl).1,
   (C8_infra_mishandled gatewayInfra 2 5 rfl).2⟩

/-- C9: neither the eligibility check nor the two read operations change
the database snapshot: in the state-passing semantics, every execution
path — success, Forbidden, NotFound, and the TypeError path — returns the
snapshot it was given. -/
theorem C9_state_unchanged (userId hotelId : Nat) (db : DB) :
    (findUserWithTicketTypeByUserIdS userId db).2 = db
    ∧ (isAllowedS userId db).2 = db
    ∧ (getHotelsS userId db).2 = db
    ∧ (getHotelWithRoomsS userId hotelId db).2 = db := by
  have hA : (isAllowedS userId db).2 = db := by
    simp only [isAllowedS, findUserWithTicketTypeByUserIdS, findUserWithTicketTypeByUserId]
    cases db.users.head? with
    | none => rfl
    | some user =>
      dsimp only
      cases (user.Enrollment.head?).bind (fun e => e.Ticket.head?) with
      | none => rfl
      | some t =>
        dsimp only
        cases t.TicketType with
        | none => rfl
        | some tt => rfl
  refine ⟨rfl, hA, ?_, ?_⟩
  · simp only [getHotelsS]
    cases hR : isAllowedS userId db with
    | mk r db1 =>
      have hdb1 : db1 = db := by rw [← hA, hR]
      cases r with
      | error e => exact hdb1
      | ok allowed =>
        cases allowed with
        | false => exact hdb1
        | true =>
          dsimp only [findHotelsS]
          exact hdb1
  · simp only [getHotelWithRoomsS]
    cases hR : isAllowedS userId db with
    | mk r db1 =>
      have hdb1 : db1 = db := by rw [← hA, hR]
      cases r with
      | error e => exact hdb1
      | ok allowed =>
        cases allowed with
        | false => exact hdb1
        | true =>
          dsimp only [findHotelWithRoomsByIdS]
          cases findHotelWithRoomsById db1 hotelId with
          | none => exact hdb1
          | some hw => exact hdb1

/-- C10: over any fixed snapshot the eligibility decision and both guarded
operations give identical outcomes for any two caller userIds, because the
user lookup they share does not filter by the supplied userId. -/
theorem C10_userId_irrelevant (db : DB) (u1 u2 hid : Nat) :
    isAllowed (gatewayOfDb db) u1 = isAllowed (gatewayOfDb db) u2
    ∧ getHotels (gatewayOfDb db) u1 = getHotels (gatewayOfDb db) u2
    ∧ getHotelWithRooms (gatewayOfDb db) u1 hid
        = getHotelWithRooms (gatewayOfDb db) u2 hid :=
  ⟨rfl, rfl, rfl⟩
